import Mathlib

set_option linter.unusedVariables false

/- Verification of the PyDodo aircraft-separation subsystem
   (src/PyDodo/pydodo/distance_measures.py with the guards of
   src/PyDodo/pydodo/utils.py).

   Conventions of the shallow embedding:
   * Python floats are modelled as exact rationals; a float NaN (the pandas
     missing-value marker) is modelled as `none` in `Option Rat`.
   * A Python AssertionError raised by a validation guard is the
     InvalidArgument failure of the spec; an AttributeError is kept separate.
     Fallible code returns Except.
   * geopy (distance.geodesic, distance.great_circle) and numpy/scipy
     (cos, sin, deg2rad, euclidean) are external libraries, collaborators in
     the sense of the spec, and enter the embedding as abstract function
     parameters; a finite float result of theirs is again a rational.
   * The Position Provider (request_position.all_positions) is external;
     its stateful query is embedded by explicit state passing with a call
     counter.
-/

/-- Errors a PyDodo call can raise. `invalidArgument` models the
AssertionError of a validation guard (the InvalidArgument of the spec, with
the message text of the failed assert); `attributeError` models a Python
AttributeError. The Python messages interpolate the offending value; the
embedding keeps the fixed message text only. -/
inductive PyError where
  | invalidArgument (msg : String)
  | attributeError (msg : String)
deriving DecidableEq

/-- True exactly when a computation failed with InvalidArgument. -/
def isInvalidArg {α : Type} : Except PyError α → Bool
  | Except.error (PyError.invalidArgument _) => true
  | _ => false

/-- One row of the positions dataframe: latitude, longitude, altitude.
These are the GeoPoint fields of the spec; `none` is a NaN entry. -/
structure Row where
  latitude : Option ℚ
  longitude : Option ℚ
  altitude : Option ℚ
deriving DecidableEq

/-- Python `row.isnull().any()`: some field of the row is NaN. -/
def Row.isnullAny (r : Row) : Bool :=
  r.latitude.isNone || r.longitude.isNone || r.altitude.isNone

/-- Modelled from the spec: `utils._validate_latitude` is not under src/
(only its callers are). Spec 4.3: latitude must lie in [-90, 90], otherwise
InvalidArgument; this agrees with `utils._check_latitude` (abs(lat) <= 90).
A NaN argument fails the comparison in Python, hence is rejected. The
embedding returns the checked rational so that later code can use it. -/
def _validate_latitude (lat : Option ℚ) : Except PyError ℚ :=
  match lat with
  | some v =>
      if |v| ≤ 90 then Except.ok v
      else Except.error (PyError.invalidArgument ("Invalid value for latitude"))
  | none => Except.error (PyError.invalidArgument ("Invalid value for latitude"))

/-- Modelled from the spec: `utils._validate_longitude` is not under src/.
Spec 4.3: longitude must lie in [-180, 180), otherwise InvalidArgument;
this agrees with `utils._check_longitude`. NaN is rejected. -/
def _validate_longitude (lon : Option ℚ) : Except PyError ℚ :=
  match lon with
  | some v =>
      if -180 ≤ v ∧ v < 180 then Except.ok v
      else Except.error (PyError.invalidArgument ("Invalid value for longitude"))
  | none => Except.error (PyError.invalidArgument ("Invalid value for longitude"))

/-- Modelled from the spec: `utils._validate_is_positive` is not under src/.
Spec 4.1 requires altitudes to be nonnegative ("Both altitudes must be
>= 0") and applies the same guard to radius and flattening; violation is
InvalidArgument. NaN is rejected (a NaN comparison is false in Python). -/
def _validate_is_positive (val : Option ℚ) (param_name : String) : Except PyError ℚ :=
  match val with
  | some v =>
      if 0 ≤ v then Except.ok v
      else Except.error (PyError.invalidArgument ("Invalid value for " ++ param_name))
  | none => Except.error (PyError.invalidArgument ("Invalid value for " ++ param_name))

/-- Modelled from the spec: `utils._validate_id_list` is not under src/.
Spec 4.2/4.3: both id lists must be non-empty lists of valid identifiers,
each a non-empty string; violation is InvalidArgument. -/
def _check_id (aircraft_id : String) : Bool :=
  aircraft_id.length ≥ 1

/-- Modelled from the spec: list-of-valid-ids guard, see `_check_id`. -/
def _validate_id_list (ids : List String) : Except PyError Unit :=
  if !ids.isEmpty && ids.all _check_id then Except.ok ()
  else Except.error (PyError.invalidArgument ("Invalid aircraft ID list"))

/-- geopy ELLIPSOIDS WGS-84 value: major semiaxis in km. -/
def major_semiaxis : ℚ := 6378.137

/-- geopy ELLIPSOIDS WGS-84 value: minor semiaxis in km. -/
def minor_semiaxis : ℚ := 6356.7523142

/-- geopy ELLIPSOIDS WGS-84 value: ellipsoidal flattening. -/
def ellipse_flattening : ℚ := 1 / 298.257223563

/-- EARTH_RADIUS = major_semiaxis * 1000 (metres), from the source module. -/
def EARTH_RADIUS : ℚ := major_semiaxis * 1000

/-- The two geopy geodesy solvers, abstracted: `geodesic` receives the two
points and the ellipsoid triple (major km, minor km, flattening) exactly as
the source passes them; `great_circle` receives the two points and the
radius in km. -/
structure GeoKernels where
  geodesic : ℚ → ℚ → ℚ → ℚ → ℚ → ℚ → ℚ → ℚ
  great_circle : ℚ → ℚ → ℚ → ℚ → ℚ → ℚ

/-- The numpy/scipy float operations used by the euclidean route,
abstracted: np.cos, np.sin, np.deg2rad and scipy euclidean on 3-vectors. -/
structure FloatOps where
  cos : ℚ → ℚ
  sin : ℚ → ℚ
  deg2rad : ℚ → ℚ
  euclidean3 : ℚ × ℚ × ℚ → ℚ × ℚ × ℚ → ℚ

/-- distance_measures.geodesic_distance: validate the four coordinates and
the ellipsoid parameters, then call geopy with the ellipsoid
(major_semiaxis/1000, minor_semiaxis, flattening). -/
def geodesic_distance (K : GeoKernels) (from_lat from_lon to_lat to_lon : Option ℚ)
    (major_semiaxis flattening : ℚ) : Except PyError ℚ := do
  let flat ← _validate_latitude from_lat
  let flon ← _validate_longitude from_lon
  let tlat ← _validate_latitude to_lat
  let tlon ← _validate_longitude to_lon
  let _ ← _validate_is_positive (some major_semiaxis) ("major_semiaxis")
  let _ ← _validate_is_positive (some flattening) ("flattening")
  return K.geodesic flat flon tlat tlon (major_semiaxis / 1000) minor_semiaxis flattening

/-- distance_measures.great_circle_distance: validate, convert the radius to
km, call geopy great_circle. -/
def great_circle_distance (K : GeoKernels) (from_lat from_lon to_lat to_lon : Option ℚ)
    (radius : ℚ) : Except PyError ℚ := do
  let flat ← _validate_latitude from_lat
  let flon ← _validate_longitude from_lon
  let tlat ← _validate_latitude to_lat
  let tlon ← _validate_longitude to_lon
  let _ ← _validate_is_positive (some radius) ("radius")
  let earth_radius_km := radius / 1000
  return K.great_circle flat flon tlat tlon earth_radius_km

/-- distance_measures.vertical_distance: validate both altitudes, return
abs(from_alt - to_alt). -/
def vertical_distance (from_alt to_alt : Option ℚ) : Except PyError ℚ := do
  let a ← _validate_is_positive from_alt ("altitude")
  let b ← _validate_is_positive to_alt ("altitude")
  return |a - b|

/-- distance_measures.convert_lat_lon_to_cartesian at float level: the numpy
trigonometry is abstract, the surrounding arithmetic is the source's. -/
def convert_lat_lon_to_cartesian (F : FloatOps) (lat lon alt radius : ℚ) : ℚ × ℚ × ℚ :=
  let R := radius + alt
  let lat_r := F.deg2rad lat
  let lon_r := F.deg2rad lon
  (R * F.cos lat_r * F.cos lon_r, R * F.cos lat_r * F.sin lon_r, R * F.sin lat_r)

/-- distance_measures.euclidean_distance: validate everything, convert both
points to cartesian coordinates, apply scipy euclidean. -/
def euclidean_distance (F : FloatOps) (from_lat from_lon from_alt to_lat to_lon to_alt : Option ℚ)
    (radius : ℚ) : Except PyError ℚ := do
  let flat ← _validate_latitude from_lat
  let flon ← _validate_longitude from_lon
  let falt ← _validate_is_positive from_alt ("altitude")
  let tlat ← _validate_latitude to_lat
  let tlon ← _validate_longitude to_lon
  let talt ← _validate_is_positive to_alt ("altitude")
  let _ ← _validate_is_positive (some radius) ("radius")
  let from_cartesian := convert_lat_lon_to_cartesian F flat flon falt radius
  let to_cartesian := convert_lat_lon_to_cartesian F tlat tlon talt radius
  return F.euclidean3 from_cartesian to_cartesian

/-- distance_measures.get_distance: dispatch on the measure string. A Python
function body that falls through every branch returns None; that None is
`Except.ok none` here, distinct from every numeric result `Except.ok (some d)`. -/
def get_distance (F : FloatOps) (K : GeoKernels) (from_pos to_pos : Row)
    (measure : String) (radius flattening : ℚ) : Except PyError (Option ℚ) :=
  if measure = "geodesic" then
    (geodesic_distance K from_pos.latitude from_pos.longitude to_pos.latitude to_pos.longitude
      radius flattening).map some
  else if measure = "great_circle" then
    (great_circle_distance K from_pos.latitude from_pos.longitude to_pos.latitude to_pos.longitude
      radius).map some
  else if measure = "vertical" then
    (vertical_distance from_pos.altitude to_pos.altitude).map some
  else if measure = "euclidean" then
    (euclidean_distance F from_pos.latitude from_pos.longitude from_pos.altitude
      to_pos.latitude to_pos.longitude to_pos.altitude radius).map some
  else
    Except.ok none

/-- Modelled from the spec: the Position Provider
(request_position.all_positions) is not under src/. Its table maps aircraft
ids to position rows, the altitude in feet; the call counter records each
query so that the single-batched-call property is statable. -/
structure Provider where
  table : List (String × Row)
  calls : ℕ
deriving DecidableEq

/-- Modelled from the spec: one Position Provider query returning the full
position table and bumping the call counter. -/
def all_positions (p : Provider) : List (String × Row) × Provider :=
  (p.table, { p with calls := p.calls + 1 })

/-- A pandas row lookup that misses yields an all-NaN row. -/
def emptyRow : Row := ⟨none, none, none⟩

/-- Dataframe row lookup by aircraft id (pandas .loc / reindex source). -/
def lookupRow (df : List (String × Row)) (id : String) : Row :=
  match df.find? (fun q => q.1 == id) with
  | some q => q.2
  | none => emptyRow

/-- pandas reindex: one row per requested id, all-NaN if absent. -/
def reindex (df : List (String × Row)) (ids : List String) : List (String × Row) :=
  ids.map (fun i => (i, lookupRow df i))

/-- The source constant SCALE_FEET_TO_METRES. -/
def SCALE_FEET_TO_METRES : ℚ := 0.3048

/-- Scaling of the altitude cell of one row; NaN stays NaN. -/
def scaleRowAltitude (r : Row) : Row :=
  { r with altitude := r.altitude.map (fun a => SCALE_FEET_TO_METRES * a) }

/-- The source line pos_df.loc[:, "altitude"] = SCALE_FEET_TO_METRES * pos_df["altitude"]. -/
def scaleAltitudeColumn (df : List (String × Row)) : List (String × Row) :=
  df.map (fun q => (q.1, scaleRowAltitude q.2))

/-- distance_measures.get_pos_df: validate both id lists, deduplicate the
union (Python list(set(from + to)); the set order is unspecified, and only
membership is used downstream, so the embedding takes List.dedup), query the
provider once, reindex, convert altitude from feet to metres. -/
def get_pos_df (from_aircraft_id to_aircraft_id : List String) (p : Provider) :
    Except PyError (List (String × Row) × Provider) := do
  let _ ← _validate_id_list from_aircraft_id
  let _ ← _validate_id_list to_aircraft_id
  let ids := (from_aircraft_id ++ to_aircraft_id).dedup
  let (all_pos, p1) := all_positions p
  let pos_df := reindex all_pos ids
  let pos_df := scaleAltitudeColumn pos_df
  return (pos_df, p1)

/-- A from/to id argument of get_separation: a Python str or a list of str. -/
inductive IdInput where
  | scalar (id : String)
  | idList (ids : List String)
deriving DecidableEq

/-- Python: if not isinstance(x, list): x = [x]. -/
def IdInput.toList : IdInput → List String
  | IdInput.scalar s => [s]
  | IdInput.idList l => l

/-- The returned pandas DataFrame: pd.DataFrame(all_distances,
columns=to_aircraft_id, index=from_aircraft_id); a `none` cell is NaN. -/
structure SepMatrix where
  data : List (List (Option ℚ))
  columns : List String
  index : List String
deriving DecidableEq

/-- Cell (i, j) of the matrix, when both indices are in range. -/
def SepMatrix.cell (M : SepMatrix) (i j : ℕ) : Option (Option ℚ) :=
  M.data[i]?.bind (fun row => row[j]?)

/-- A Python list comprehension over code that may raise: the whole
comprehension raises as soon as one element does. -/
def exceptMap {α β : Type} (f : α → Except PyError β) : List α → Except PyError (List β)
  | [] => Except.ok []
  | a :: l => do
    let b ← f a
    let bs ← exceptMap f l
    return b :: bs

/-- distance_measures.get_separation. Line for line: the measure assert;
the Python None default for to_aircraft_id, which calls .copy() on
from_aircraft_id (a Python str has no attribute copy, so a scalar from id
raises AttributeError here); the scalar-to-list coercions; get_pos_df; the
nested comprehension with the NaN guard; the DataFrame construction. -/
def get_separation (F : FloatOps) (K : GeoKernels)
    (from_aircraft_id : IdInput) (to_aircraft_id : Option IdInput)
    (measure : String) (radius flattening : ℚ) (p : Provider) :
    Except PyError (SepMatrix × Provider) := do
  if measure ∉ (["geodesic", "great_circle", "vertical", "euclidean"] : List String) then
    throw (PyError.invalidArgument ("Invalid value for measure"))
  let to_in : IdInput ←
    match to_aircraft_id with
    | none =>
        match from_aircraft_id with
        | IdInput.scalar _ =>
            throw (PyError.attributeError ("str object has no attribute copy"))
        | IdInput.idList l => pure (IdInput.idList l)
    | some t => pure t
  let from_ids := from_aircraft_id.toList
  let to_ids := to_in.toList
  let (pos_df, p1) ← get_pos_df from_ids to_ids p
  let all_distances ← exceptMap (fun from_id =>
    exceptMap (fun to_id =>
      if !((lookupRow pos_df from_id).isnullAny || (lookupRow pos_df to_id).isnullAny) then
        get_distance F K (lookupRow pos_df from_id) (lookupRow pos_df to_id) measure radius flattening
      else
        pure (none : Option ℚ)) to_ids) from_ids
  return (⟨all_distances, to_ids, from_ids⟩, p1)

/-- distance_measures.geodesic_separation. -/
def geodesic_separation (F : FloatOps) (K : GeoKernels) (from_aircraft_id : IdInput)
    (to_aircraft_id : Option IdInput) (major_semiaxis flattening : ℚ) (p : Provider) :
    Except PyError (SepMatrix × Provider) :=
  get_separation F K from_aircraft_id to_aircraft_id ("geodesic") major_semiaxis flattening p

/-- distance_measures.great_circle_separation. -/
def great_circle_separation (F : FloatOps) (K : GeoKernels) (from_aircraft_id : IdInput)
    (to_aircraft_id : Option IdInput) (radius : ℚ) (p : Provider) :
    Except PyError (SepMatrix × Provider) :=
  get_separation F K from_aircraft_id to_aircraft_id ("great_circle") radius ellipse_flattening p

/-- distance_measures.vertical_separation. -/
def vertical_separation (F : FloatOps) (K : GeoKernels) (from_aircraft_id : IdInput)
    (to_aircraft_id : Option IdInput) (p : Provider) :
    Except PyError (SepMatrix × Provider) :=
  get_separation F K from_aircraft_id to_aircraft_id ("vertical") EARTH_RADIUS ellipse_flattening p

/-- distance_measures.euclidean_separation. -/
def euclidean_separation (F : FloatOps) (K : GeoKernels) (from_aircraft_id : IdInput)
    (to_aircraft_id : Option IdInput) (radius : ℚ) (p : Provider) :
    Except PyError (SepMatrix × Provider) :=
  get_separation F K from_aircraft_id to_aircraft_id ("euclidean") radius ellipse_flattening p

instance {ε α : Type} [DecidableEq ε] [DecidableEq α] : DecidableEq (Except ε α) := fun x y =>
  match x, y with
  | Except.ok a, Except.ok b =>
      if h : a = b then Decidable.isTrue (congrArg Except.ok h)
      else Decidable.isFalse (fun hh => h (Except.ok.inj hh))
  | Except.error e, Except.error f =>
      if h : e = f then Decidable.isTrue (congrArg Except.error h)
      else Decidable.isFalse (fun hh => h (Except.error.inj hh))
  | Except.ok a, Except.error f => Decidable.isFalse (fun hh => Except.noConfusion hh)
  | Except.error e, Except.ok b => Decidable.isFalse (fun hh => Except.noConfusion hh)

/-- All three fields of the row are present and pass their guards (with a
nonnegative altitude); such a row sails through every measure. -/
def rowFullyValid (r : Row) : Bool :=
  match r.latitude, r.longitude, r.altitude with
  | some lat, some lon, some alt =>
      decide (|lat| ≤ 90) && decide (-180 ≤ lon) && decide (lon < 180) && decide (0 ≤ alt)
  | _, _, _ => false

/-- The numeric value get_distance produces for a fully valid pair of rows,
written as a total function so results can be stated as equations (the
Option default 0 is never reached on fully valid rows). -/
def distance_val (F : FloatOps) (K : GeoKernels) (fr tr : Row) (measure : String)
    (radius flattening : ℚ) : ℚ :=
  if measure = "geodesic" then
    K.geodesic (fr.latitude.getD 0) (fr.longitude.getD 0) (tr.latitude.getD 0) (tr.longitude.getD 0)
      (radius / 1000) minor_semiaxis flattening
  else if measure = "great_circle" then
    K.great_circle (fr.latitude.getD 0) (fr.longitude.getD 0) (tr.latitude.getD 0) (tr.longitude.getD 0)
      (radius / 1000)
  else if measure = "vertical" then
    |fr.altitude.getD 0 - tr.altitude.getD 0|
  else
    F.euclidean3
      (convert_lat_lon_to_cartesian F (fr.latitude.getD 0) (fr.longitude.getD 0) (fr.altitude.getD 0) radius)
      (convert_lat_lon_to_cartesian F (tr.latitude.getD 0) (tr.longitude.getD 0) (tr.altitude.getD 0) radius)

/-- The position dataframe get_pos_df builds from a provider table. -/
def posDfOf (table : List (String × Row)) (from_ids to_ids : List String) : List (String × Row) :=
  scaleAltitudeColumn (reindex table ((from_ids ++ to_ids).dedup))

/-- The value of one get_separation cell: the missing-value marker if either
row has a NaN field, otherwise the dispatched distance. -/
def specCell (F : FloatOps) (K : GeoKernels) (df : List (String × Row)) (measure : String)
    (radius flattening : ℚ) (fid tid : String) : Option ℚ :=
  if !((lookupRow df fid).isnullAny || (lookupRow df tid).isnullAny) then
    some (distance_val F K (lookupRow df fid) (lookupRow df tid) measure radius flattening)
  else
    none

/-- Zero-valued stand-in for the numpy/scipy operations, for concrete runs. -/
def F0 : FloatOps := ⟨fun _ => 0, fun _ => 0, fun _ => 0, fun _ _ => 0⟩

/-- Zero-valued stand-in for the geopy solvers, for concrete runs. -/
def K0 : GeoKernels := ⟨fun _ _ _ _ _ _ _ => 0, fun _ _ _ _ _ => 0⟩

/-- A fully known in-range position row (altitude in feet). -/
def rowA : Row := ⟨some 10, some 20, some 3000⟩

/-- A row with known latitude and longitude but NaN altitude. -/
def rowNoAlt : Row := ⟨some 30, some 40, none⟩

/-- A two-aircraft provider table for concrete runs. -/
def tableA : List (String × Row) := [("AAA", rowA), ("BBB", rowNoAlt)]

/-- A fresh provider over tableA. -/
def P0 : Provider := ⟨tableA, 0⟩

/-- A provider whose single aircraft reports 10000 feet. -/
def P10 : Provider := ⟨[("AAA", ⟨some 10, some 20, some 10000⟩)], 0⟩

/-- Idealised real-number semantics of np.deg2rad: degrees to radians. -/
noncomputable def deg2radR (x : ℝ) : ℝ := x * (Real.pi / 180)

/-- Idealised real-number model of convert_lat_lon_to_cartesian: the numpy
float trigonometry is read as exact real trigonometry, the standard
idealisation of floating point; the structure follows the source line for
line (R = radius + alt, lat and lon converted to radians, then the
spherical-to-cartesian formulas). -/
noncomputable def convert_lat_lon_to_cartesianR (lat lon alt radius : ℝ) : ℝ × ℝ × ℝ :=
  let R := radius + alt
  let lat_r := deg2radR lat
  let lon_r := deg2radR lon
  (R * Real.cos lat_r * Real.cos lon_r, R * Real.cos lat_r * Real.sin lon_r, R * Real.sin lat_r)

/-- Idealised scipy euclidean on 3-vectors: the straight-line euclidean
norm of the difference of the two points. -/
noncomputable def euclideanR (a b : ℝ × ℝ × ℝ) : ℝ :=
  Real.sqrt ((a.1 - b.1) ^ 2 + (a.2.1 - b.2.1) ^ 2 + (a.2.2 - b.2.2) ^ 2)

open Classical in
/-- Real-number version of the latitude guard, for the idealised model. -/
noncomputable def _validate_latitudeR (lat : ℝ) : Except PyError ℝ :=
  if |lat| ≤ 90 then Except.ok lat
  else Except.error (PyError.invalidArgument ("Invalid value for latitude"))

open Classical in
/-- Real-number version of the longitude guard, for the idealised model. -/
noncomputable def _validate_longitudeR (lon : ℝ) : Except PyError ℝ :=
  if -180 ≤ lon ∧ lon < 180 then Except.ok lon
  else Except.error (PyError.invalidArgument ("Invalid value for longitude"))

open Classical in
/-- Real-number version of the nonnegativity guard, for the idealised model. -/
noncomputable def _validate_is_positiveR (val : ℝ) (param_name : String) : Except PyError ℝ :=
  if 0 ≤ val then Except.ok val
  else Except.error (PyError.invalidArgument ("Invalid value for " ++ param_name))

/-- Idealised real-number model of distance_measures.euclidean_distance:
validate everything, convert both points to cartesian coordinates, apply
the euclidean norm. -/
noncomputable def euclidean_distanceR
    (from_lat from_lon from_alt to_lat to_lon to_alt radius : ℝ) : Except PyError ℝ := do
  let flat ← _validate_latitudeR from_lat
  let flon ← _validate_longitudeR from_lon
  let falt ← _validate_is_positiveR from_alt ("altitude")
  let tlat ← _validate_latitudeR to_lat
  let tlon ← _validate_longitudeR to_lon
  let talt ← _validate_is_positiveR to_alt ("altitude")
  let _ ← _validate_is_positiveR radius ("radius")
  let from_cartesian := convert_lat_lon_to_cartesianR flat flon falt radius
  let to_cartesian := convert_lat_lon_to_cartesianR tlat tlon talt radius
  return euclideanR from_cartesian to_cartesian

/- Helper lemmas about the Except monad and the validators. -/

@[simp] theorem pyOk_bind {α β : Type} (a : α) (f : α → Except PyError β) :
    (Except.ok a >>= f) = f a := rfl

@[simp] theorem pyError_bind {α β : Type} (e : PyError) (f : α → Except PyError β) :
    ((Except.error e : Except PyError α) >>= f) = Except.error e := rfl

@[simp] theorem pyThrow_eq {α : Type} (e : PyError) :
    (throw e : Except PyError α) = Except.error e := rfl

@[simp] theorem pyPure_eq {α : Type} (a : α) :
    (pure a : Except PyError α) = Except.ok a := rfl

@[simp] theorem pyMap_ok {α β : Type} (f : α → β) (a : α) :
    Except.map f (Except.ok a : Except PyError α) = Except.ok (f a) := rfl

@[simp] theorem pyMap_error {α β : Type} (f : α → β) (e : PyError) :
    Except.map f (Except.error e : Except PyError α) = Except.error e := rfl

@[simp] theorem isInvalidArg_invalid {α : Type} (m : String) :
    isInvalidArg (Except.error (PyError.invalidArgument m) : Except PyError α) = true := rfl

@[simp] theorem isInvalidArg_ok {α : Type} (a : α) :
    isInvalidArg (Except.ok a : Except PyError α) = false := rfl

theorem isInvalidArg_bind_chain {α β : Type} (e : Except PyError α) (f : α → Except PyError β)
    (hshape : (∃ v, e = Except.ok v) ∨ ∃ m, e = Except.error (PyError.invalidArgument m))
    (h : ∀ v, e = Except.ok v → isInvalidArg (f v) = true) :
    isInvalidArg (e >>= f) = true := by
  rcases hshape with ⟨v, hv⟩ | ⟨m, hm⟩
  · rw [hv, pyOk_bind]; exact h v hv
  · rw [hm, pyError_bind]; rfl

theorem validate_latitude_cases (x : Option ℚ) :
    (∃ v, _validate_latitude x = Except.ok v) ∨
      ∃ m, _validate_latitude x = Except.error (PyError.invalidArgument m) := by
  cases x with
  | none => exact Or.inr ⟨_, rfl⟩
  | some v =>
      by_cases h : |v| ≤ 90
      · exact Or.inl ⟨v, by simp [_validate_latitude, h]⟩
      · exact Or.inr ⟨("Invalid value for latitude"), by simp [_validate_latitude, h]⟩

theorem validate_longitude_cases (x : Option ℚ) :
    (∃ v, _validate_longitude x = Except.ok v) ∨
      ∃ m, _validate_longitude x = Except.error (PyError.invalidArgument m) := by
  cases x with
  | none => exact Or.inr ⟨_, rfl⟩
  | some v =>
      by_cases h : -180 ≤ v ∧ v < 180
      · exact Or.inl ⟨v, by simp [_validate_longitude, h]⟩
      · exact Or.inr ⟨("Invalid value for longitude"), by simp [_validate_longitude, h]⟩

theorem validate_is_positive_cases (x : Option ℚ) (nm : String) :
    (∃ v, _validate_is_positive x nm = Except.ok v) ∨
      ∃ m, _validate_is_positive x nm = Except.error (PyError.invalidArgument m) := by
  cases x with
  | none => exact Or.inr ⟨_, rfl⟩
  | some v =>
      by_cases h : 0 ≤ v
      · exact Or.inl ⟨v, by simp [_validate_is_positive, h]⟩
      · exact Or.inr ⟨("Invalid value for " ++ nm), by simp [_validate_is_positive, h]⟩

theorem validate_latitude_bad (l : ℚ) (hl : 90 < |l|) :
    _validate_latitude (some l) =
      Except.error (PyError.invalidArgument ("Invalid value for latitude")) := by
  simp [_validate_latitude, not_le.mpr hl]

/-- Claim C1, counterexample: get_distance called with the unrecognized
measure "foobar" does not fail with InvalidArgument; its if chain has no
else branch, so the function returns a value, Python None. -/
theorem get_distance_unknown_measure_returns_none :
    get_distance F0 K0 rowA rowA ("foobar") EARTH_RADIUS ellipse_flattening = Except.ok none ∧
    isInvalidArg (get_distance F0 K0 rowA rowA ("foobar") EARTH_RADIUS ellipse_flattening) = false :=
  ⟨rfl, rfl⟩

/-- Claim C1, amended: for every measure outside the four recognized values
and any pair of positions, get_distance itself raises nothing and returns
Python None, while get_separation rejects the measure with InvalidArgument
(its assert) before any other work, for every id input and provider. -/
theorem unknown_measure_none_in_get_distance_invalid_in_get_separation
    (F : FloatOps) (K : GeoKernels) (fr tr : Row) (measure : String)
    (radius flattening : ℚ) (from_in : IdInput) (to_in : Option IdInput) (p : Provider)
    (hm : measure ∉ (["geodesic", "great_circle", "vertical", "euclidean"] : List String)) :
    get_distance F K fr tr measure radius flattening = Except.ok none ∧
    isInvalidArg (get_separation F K from_in to_in measure radius flattening p) = true := by
  have h1 : measure ≠ "geodesic" := fun h => hm (by simp [h])
  have h2 : measure ≠ "great_circle" := fun h => hm (by simp [h])
  have h3 : measure ≠ "vertical" := fun h => hm (by simp [h])
  have h4 : measure ≠ "euclidean" := fun h => hm (by simp [h])
  constructor
  · simp [get_distance, h1, h2, h3, h4]
  · simp [get_separation, hm]

theorem unknown_measure_none_in_get_distance_invalid_in_get_separation_witness :
    ("foobar" ∉ (["geodesic", "great_circle", "vertical", "euclidean"] : List String)) ∧
    (get_distance F0 K0 rowA rowA ("foobar") EARTH_RADIUS ellipse_flattening = Except.ok none ∧
     isInvalidArg (get_separation F0 K0 (IdInput.idList (["AAA"])) (some (IdInput.idList (["AAA"])))
       ("foobar") EARTH_RADIUS ellipse_flattening P0) = true) :=
  ⟨by decide,
   unknown_measure_none_in_get_distance_invalid_in_get_separation F0 K0 rowA rowA ("foobar")
     EARTH_RADIUS ellipse_flattening (IdInput.idList (["AAA"])) (some (IdInput.idList (["AAA"])))
     P0 (by decide)⟩

/-- Claim C3 (code bug): with a scalar from id and to ids omitted (Python
None), get_separation reaches from_aircraft_id.copy() before the
scalar-to-list coercion; a Python str has no attribute copy, so the call
dies with AttributeError instead of producing the 1x1 self-separation
matrix its own docstring and the spec promise. The same call with the
one-element list input succeeds and yields the 1x1 matrix. -/
theorem scalar_from_id_with_default_to_ids_crashes :
    get_separation F0 K0 (IdInput.scalar ("AAA")) none ("vertical") EARTH_RADIUS
        ellipse_flattening P0 =
      Except.error (PyError.attributeError ("str object has no attribute copy")) ∧
    get_separation F0 K0 (IdInput.idList (["AAA"])) none ("vertical") EARTH_RADIUS
        ellipse_flattening P0 =
      Except.ok (⟨[[some 0]], ["AAA"], ["AAA"]⟩, ⟨tableA, 1⟩) := by
  constructor
  · rfl
  · have hA : (1 : ℕ) ≤ "AAA".length := by decide
    norm_num [get_separation, get_pos_df, _validate_id_list, _check_id, all_positions,
      reindex, scaleAltitudeColumn, scaleRowAltitude, lookupRow, List.find?,
      exceptMap, get_distance, vertical_distance, _validate_is_positive,
      SCALE_FEET_TO_METRES, Row.isnullAny, tableA, P0, rowA, rowNoAlt, emptyRow,
      IdInput.toList, List.dedup, EARTH_RADIUS, major_semiaxis, hA, Except.map]
    simp

/-- Claim C6: vertical_distance accepts any pair of nonnegative altitudes
and returns the absolute difference; in particular 100 and 150 give 50 and
equal altitudes give 0; a negative altitude in either slot is rejected with
InvalidArgument. -/
theorem vertical_distance_abs_diff_and_guard (a b x y z : ℚ)
    (ha : 0 ≤ a) (hb : 0 ≤ b) (hx : 0 ≤ x) (hz : z < 0) :
    vertical_distance (some a) (some b) = Except.ok |a - b| ∧
    vertical_distance (some 100) (some 150) = Except.ok 50 ∧
    vertical_distance (some x) (some x) = Except.ok 0 ∧
    isInvalidArg (vertical_distance (some z) (some y)) = true ∧
    isInvalidArg (vertical_distance (some y) (some z)) = true := by
  refine ⟨?_, by norm_num [vertical_distance, _validate_is_positive], ?_, ?_, ?_⟩
  · simp [vertical_distance, _validate_is_positive, ha, hb]
  · simp [vertical_distance, _validate_is_positive, hx]
  · have h : ¬(0 ≤ z) := not_le.mpr hz
    simp [vertical_distance, _validate_is_positive, h]
  · have h : ¬(0 ≤ z) := not_le.mpr hz
    rcases le_or_lt 0 y with hy | hy
    · simp [vertical_distance, _validate_is_positive, hy, h]
    · have hy2 : ¬(0 ≤ y) := not_le.mpr hy
      simp [vertical_distance, _validate_is_positive, hy2]

theorem vertical_distance_abs_diff_and_guard_witness :
    ((0:ℚ) ≤ 100 ∧ (0:ℚ) ≤ 150 ∧ (0:ℚ) ≤ 7 ∧ (-5:ℚ) < 0) ∧
    (vertical_distance (some 100) (some 150) = Except.ok |(100:ℚ) - 150| ∧
     vertical_distance (some 100) (some 150) = Except.ok 50 ∧
     vertical_distance (some 7) (some 7) = Except.ok 0 ∧
     isInvalidArg (vertical_distance (some (-5)) (some 3)) = true ∧
     isInvalidArg (vertical_distance (some 3) (some (-5))) = true) :=
  ⟨⟨by decide, by decide, by decide, by decide⟩,
   vertical_distance_abs_diff_and_guard 100 150 7 3 (-5) (by decide) (by decide) (by decide)
     (by decide)⟩

/-- Claim C7: a latitude outside [-90, 90] supplied in either latitude slot
makes geodesic_distance, great_circle_distance and euclidean_distance fail
with InvalidArgument, whatever the other arguments are; these primitives
take no provider and perform no I/O, so the failure precedes any network
activity by construction. -/
theorem latitude_out_of_range_rejected_by_primitives (F : FloatOps) (K : GeoKernels)
    (l : ℚ) (hl : 90 < |l|) (flat tlat flon tlon falt talt : Option ℚ)
    (radius flattening : ℚ) :
    isInvalidArg (geodesic_distance K (some l) flon tlat tlon radius flattening) = true ∧
    isInvalidArg (geodesic_distance K flat flon (some l) tlon radius flattening) = true ∧
    isInvalidArg (great_circle_distance K (some l) flon tlat tlon radius) = true ∧
    isInvalidArg (great_circle_distance K flat flon (some l) tlon radius) = true ∧
    isInvalidArg (euclidean_distance F (some l) flon falt tlat tlon talt radius) = true ∧
    isInvalidArg (euclidean_distance F flat flon falt (some l) tlon talt radius) = true := by
  refine ⟨?_, ?_, ?_, ?_, ?_, ?_⟩
  · unfold geodesic_distance
    rw [validate_latitude_bad l hl, pyError_bind]
    rfl
  · unfold geodesic_distance
    refine isInvalidArg_bind_chain _ _ (validate_latitude_cases _) (fun v hv => ?_)
    refine isInvalidArg_bind_chain _ _ (validate_longitude_cases _) (fun w hw => ?_)
    rw [validate_latitude_bad l hl, pyError_bind]
    rfl
  · unfold great_circle_distance
    rw [validate_latitude_bad l hl, pyError_bind]
    rfl
  · unfold great_circle_distance
    refine isInvalidArg_bind_chain _ _ (validate_latitude_cases _) (fun v hv => ?_)
    refine isInvalidArg_bind_chain _ _ (validate_longitude_cases _) (fun w hw => ?_)
    rw [validate_latitude_bad l hl, pyError_bind]
    rfl
  · unfold euclidean_distance
    rw [validate_latitude_bad l hl, pyError_bind]
    rfl
  · unfold euclidean_distance
    refine isInvalidArg_bind_chain _ _ (validate_latitude_cases _) (fun v hv => ?_)
    refine isInvalidArg_bind_chain _ _ (validate_longitude_cases _) (fun w hw => ?_)
    refine isInvalidArg_bind_chain _ _ (validate_is_positive_cases _ _) (fun u hu => ?_)
    rw [validate_latitude_bad l hl, pyError_bind]
    rfl

theorem latitude_out_of_range_rejected_by_primitives_witness :
    ((90:ℚ) < |(91:ℚ)|) ∧
    (isInvalidArg (geodesic_distance K0 (some 91) (some 0) (some 0) (some 0) EARTH_RADIUS
        ellipse_flattening) = true ∧
     isInvalidArg (geodesic_distance K0 (some 0) (some 0) (some 91) (some 0) EARTH_RADIUS
        ellipse_flattening) = true ∧
     isInvalidArg (great_circle_distance K0 (some 91) (some 0) (some 0) (some 0)
        EARTH_RADIUS) = true ∧
     isInvalidArg (great_circle_distance K0 (some 0) (some 0) (some 91) (some 0)
        EARTH_RADIUS) = true ∧
     isInvalidArg (euclidean_distance F0 (some 91) (some 0) (some 0) (some 0) (some 0) (some 0)
        EARTH_RADIUS) = true ∧
     isInvalidArg (euclidean_distance F0 (some 0) (some 0) (some 0) (some 91) (some 0) (some 0)
        EARTH_RADIUS) = true) :=
  ⟨by decide,
   latitude_out_of_range_rejected_by_primitives F0 K0 91 (by decide) (some 0) (some 0) (some 0)
     (some 0) (some 0) (some 0) EARTH_RADIUS ellipse_flattening⟩

/- Structural lemmas about rows, lookups and the dataframe pipeline. -/

theorem rowFullyValid_iff (r : Row) :
    rowFullyValid r = true ↔
      ∃ lat lon alt, r.latitude = some lat ∧ r.longitude = some lon ∧ r.altitude = some alt ∧
        |lat| ≤ 90 ∧ -180 ≤ lon ∧ lon < 180 ∧ 0 ≤ alt := by
  rcases r with ⟨la, lo, al⟩
  cases la <;> cases lo <;> cases al <;> simp [rowFullyValid, and_assoc]

theorem rowFullyValid_not_null (r : Row) (h : rowFullyValid r = true) :
    r.isnullAny = false := by
  rcases r with ⟨la, lo, al⟩
  cases la <;> cases lo <;> cases al <;> simp_all [rowFullyValid, Row.isnullAny]

theorem scaleRowAltitude_isnullAny (r : Row) :
    (scaleRowAltitude r).isnullAny = r.isnullAny := by
  rcases r with ⟨la, lo, al⟩
  cases al <;> simp [scaleRowAltitude, Row.isnullAny]

theorem rowFullyValid_scale (r : Row) (h : rowFullyValid r = true) :
    rowFullyValid (scaleRowAltitude r) = true := by
  obtain ⟨lat, lon, alt, h1, h2, h3, b1, b2, b3, b4⟩ := (rowFullyValid_iff r).mp h
  apply (rowFullyValid_iff _).mpr
  refine ⟨lat, lon, SCALE_FEET_TO_METRES * alt, ?_, ?_, ?_, b1, b2, b3, ?_⟩
  · simpa [scaleRowAltitude] using h1
  · simpa [scaleRowAltitude] using h2
  · simp [scaleRowAltitude, h3]
  · exact mul_nonneg (by norm_num [SCALE_FEET_TO_METRES]) b4

theorem lookupRow_cons (k : String) (r : Row) (l : List (String × Row)) (id : String) :
    lookupRow ((k, r) :: l) id = if k == id then r else lookupRow l id := by
  by_cases h : (k == id) = true
  · have e := @List.find?_cons_of_pos _ (fun q => q.1 == id) (k, r) l h
    simp [lookupRow, e, h]
  · have e := @List.find?_cons_of_neg _ (fun q => q.1 == id) (k, r) l h
    simp [lookupRow, e, h]

theorem reindex_cons (t : List (String × Row)) (a : String) (l : List String) :
    reindex t (a :: l) = (a, lookupRow t a) :: reindex t l := rfl

theorem reindex_nil (t : List (String × Row)) : reindex t [] = [] := rfl

theorem scaleAltitudeColumn_cons (q : String × Row) (l : List (String × Row)) :
    scaleAltitudeColumn (q :: l) = (q.1, scaleRowAltitude q.2) :: scaleAltitudeColumn l := rfl

theorem scaleAltitudeColumn_nil : scaleAltitudeColumn [] = [] := rfl

theorem lookupRow_nil (id : String) : lookupRow [] id = emptyRow := rfl

theorem lookupRow_scaleAltitudeColumn (df : List (String × Row)) (id : String) :
    lookupRow (scaleAltitudeColumn df) id = scaleRowAltitude (lookupRow df id) := by
  induction df with
  | nil => simp [scaleAltitudeColumn_nil, lookupRow_nil, emptyRow, scaleRowAltitude]
  | cons q l ih =>
      rcases q with ⟨k, r⟩
      by_cases h : (k == id) = true
      · simp [scaleAltitudeColumn_cons, lookupRow_cons, h]
      · simp [scaleAltitudeColumn_cons, lookupRow_cons, h, ih]

theorem lookupRow_reindex_mem (t : List (String × Row)) (ids : List String) (id : String)
    (h : id ∈ ids) : lookupRow (reindex t ids) id = lookupRow t id := by
  induction ids with
  | nil => cases h
  | cons a l ih =>
      by_cases ha : (a == id) = true
      · have he : a = id := by simpa using ha
        simp [reindex_cons, lookupRow_cons, ha, he]
      · have h2 : id ∈ l := by
          rcases List.mem_cons.mp h with h1 | h1
          · exact absurd (by simp [h1]) ha
          · exact h1
        simp [reindex_cons, lookupRow_cons, ha, ih h2]

theorem lookupRow_reindex_not_mem (t : List (String × Row)) (ids : List String) (id : String)
    (h : id ∉ ids) : lookupRow (reindex t ids) id = emptyRow := by
  induction ids with
  | nil => rfl
  | cons a l ih =>
      have ha : ¬((a == id) = true) := by
        simp only [beq_iff_eq]
        intro e
        exact h (by simp [e])
      have h2 : id ∉ l := fun hl => h (List.mem_cons_of_mem a hl)
      simp [reindex_cons, lookupRow_cons, ha, ih h2]

theorem lookupRow_posDfOf (t : List (String × Row)) (fids tids : List String) (id : String)
    (h : id ∈ fids ++ tids) :
    lookupRow (posDfOf t fids tids) id = scaleRowAltitude (lookupRow t id) := by
  unfold posDfOf
  rw [lookupRow_scaleAltitudeColumn, lookupRow_reindex_mem _ _ _ (List.mem_dedup.mpr h)]

theorem keys_scaleAltitudeColumn (df : List (String × Row)) :
    (scaleAltitudeColumn df).map Prod.fst = df.map Prod.fst := by
  induction df with
  | nil => rfl
  | cons q l ih => simp [scaleAltitudeColumn_cons, ih]

theorem keys_reindex (t : List (String × Row)) (ids : List String) :
    (reindex t ids).map Prod.fst = ids := by
  induction ids with
  | nil => rfl
  | cons a l ih => simp [reindex_cons, ih]

theorem exceptMap_ok {α β : Type} (f : α → Except PyError β) (g : α → β) (l : List α)
    (h : ∀ a ∈ l, f a = Except.ok (g a)) : exceptMap f l = Except.ok (l.map g) := by
  induction l with
  | nil => rfl
  | cons a l ih =>
      have ha := h a (List.mem_cons_self a l)
      have hl := ih (fun b hb => h b (List.mem_cons_of_mem a hb))
      simp [exceptMap, ha, hl]

theorem get_pos_df_ok (fids tids : List String) (p : Provider)
    (hf : _validate_id_list fids = Except.ok ())
    (ht : _validate_id_list tids = Except.ok ()) :
    get_pos_df fids tids p =
      Except.ok (posDfOf p.table fids tids, ⟨p.table, p.calls + 1⟩) := by
  simp [get_pos_df, hf, ht, all_positions, posDfOf]

theorem get_distance_ok (F : FloatOps) (K : GeoKernels) (fr tr : Row) (measure : String)
    (radius flattening : ℚ)
    (hm : measure ∈ (["geodesic", "great_circle", "vertical", "euclidean"] : List String))
    (hfr : rowFullyValid fr = true) (htr : rowFullyValid tr = true)
    (hr : 0 ≤ radius) (hfl : 0 ≤ flattening) :
    get_distance F K fr tr measure radius flattening =
      Except.ok (some (distance_val F K fr tr measure radius flattening)) := by
  obtain ⟨flat, flon, falt, hf1, hf2, hf3, a1, a2, a3, a4⟩ := (rowFullyValid_iff fr).mp hfr
  obtain ⟨tlat, tlon, talt, ht1, ht2, ht3, b1, b2, b3, b4⟩ := (rowFullyValid_iff tr).mp htr
  simp only [List.mem_cons, List.mem_singleton, List.not_mem_nil, or_false] at hm
  rcases hm with h | h | h | h <;> subst h
  · simp [get_distance, distance_val, geodesic_distance, _validate_latitude,
      _validate_longitude, _validate_is_positive, hf1, hf2, ht1, ht2, a1, a2, a3, b1, b2, b3,
      hr, hfl]
  · simp [get_distance, distance_val, great_circle_distance, _validate_latitude,
      _validate_longitude, _validate_is_positive, hf1, hf2, ht1, ht2, a1, a2, a3, b1, b2, b3,
      hr]
  · simp [get_distance, distance_val, vertical_distance, _validate_is_positive,
      hf3, ht3, a4, b4]
  · simp [get_distance, distance_val, euclidean_distance, _validate_latitude,
      _validate_longitude, _validate_is_positive, hf1, hf2, hf3, ht1, ht2, ht3,
      a1, a2, a3, a4, b1, b2, b3, b4, hr]

theorem get_separation_cell_ok (F : FloatOps) (K : GeoKernels) (fids tids : List String)
    (measure : String) (radius flattening : ℚ) (p : Provider)
    (hm : measure ∈ (["geodesic", "great_circle", "vertical", "euclidean"] : List String))
    (hr : 0 ≤ radius) (hfl : 0 ≤ flattening)
    (hrows : ((fids ++ tids).all (fun id =>
        (lookupRow p.table id).isnullAny || rowFullyValid (lookupRow p.table id))) = true)
    (fid tid : String) (hfid : fid ∈ fids) (htid : tid ∈ tids) :
    (if !((lookupRow (posDfOf p.table fids tids) fid).isnullAny ||
          (lookupRow (posDfOf p.table fids tids) tid).isnullAny) then
       get_distance F K (lookupRow (posDfOf p.table fids tids) fid)
         (lookupRow (posDfOf p.table fids tids) tid) measure radius flattening
     else
       pure (none : Option ℚ)) =
    Except.ok (specCell F K (posDfOf p.table fids tids) measure radius flattening fid tid) := by
  have hmemf : fid ∈ fids ++ tids := List.mem_append_left _ hfid
  have hmemt : tid ∈ fids ++ tids := List.mem_append_right _ htid
  have hlf := lookupRow_posDfOf p.table fids tids fid hmemf
  have hlt := lookupRow_posDfOf p.table fids tids tid hmemt
  by_cases g : ((lookupRow (posDfOf p.table fids tids) fid).isnullAny ||
      (lookupRow (posDfOf p.table fids tids) tid).isnullAny) = true
  · simp [g, specCell]
  · have g2 := g
    rw [Bool.or_eq_true] at g2
    push_neg at g2
    have gf : (lookupRow (posDfOf p.table fids tids) fid).isnullAny = false := by
      simpa using g2.1
    have gt : (lookupRow (posDfOf p.table fids tids) tid).isnullAny = false := by
      simpa using g2.2
    have vf : rowFullyValid (lookupRow (posDfOf p.table fids tids) fid) = true := by
      have hp : (lookupRow p.table fid).isnullAny = false := by
        rw [hlf, scaleRowAltitude_isnullAny] at gf
        exact gf
      have := (List.all_eq_true.mp hrows) fid hmemf
      rw [Bool.or_eq_true, hp] at this
      rcases this with h | h
      · cases h
      · rw [hlf]
        exact rowFullyValid_scale _ h
    have vt : rowFullyValid (lookupRow (posDfOf p.table fids tids) tid) = true := by
      have hp : (lookupRow p.table tid).isnullAny = false := by
        rw [hlt, scaleRowAltitude_isnullAny] at gt
        exact gt
      have := (List.all_eq_true.mp hrows) tid hmemt
      rw [Bool.or_eq_true, hp] at this
      rcases this with h | h
      · cases h
      · rw [hlt]
        exact rowFullyValid_scale _ h
    have g3 : ((lookupRow (posDfOf p.table fids tids) fid).isnullAny ||
        (lookupRow (posDfOf p.table fids tids) tid).isnullAny) = false := by
      rw [gf, gt]
      rfl
    simp only [g3, Bool.not_false, if_true]
    rw [get_distance_ok F K _ _ measure radius flattening hm vf vt hr hfl]
    simp [specCell, g3]

theorem get_separation_ok (F : FloatOps) (K : GeoKernels) (fids tids : List String)
    (measure : String) (radius flattening : ℚ) (p : Provider)
    (hm : measure ∈ (["geodesic", "great_circle", "vertical", "euclidean"] : List String))
    (hf : _validate_id_list fids = Except.ok ()) (ht : _validate_id_list tids = Except.ok ())
    (hr : 0 ≤ radius) (hfl : 0 ≤ flattening)
    (hrows : ((fids ++ tids).all (fun id =>
        (lookupRow p.table id).isnullAny || rowFullyValid (lookupRow p.table id))) = true) :
    get_separation F K (IdInput.idList fids) (some (IdInput.idList tids)) measure radius
        flattening p =
      Except.ok (⟨fids.map (fun fid => tids.map (fun tid =>
          specCell F K (posDfOf p.table fids tids) measure radius flattening fid tid)),
        tids, fids⟩, ⟨p.table, p.calls + 1⟩) := by
  have hnm : ¬(measure ∉ (["geodesic", "great_circle", "vertical", "euclidean"] : List String)) :=
    not_not_intro hm
  have hout : exceptMap (fun from_id => exceptMap (fun to_id =>
      if !((lookupRow (posDfOf p.table fids tids) from_id).isnullAny ||
           (lookupRow (posDfOf p.table fids tids) to_id).isnullAny) then
        get_distance F K (lookupRow (posDfOf p.table fids tids) from_id)
          (lookupRow (posDfOf p.table fids tids) to_id) measure radius flattening
      else pure none) tids) fids =
      Except.ok (fids.map (fun fid => tids.map (fun tid =>
        specCell F K (posDfOf p.table fids tids) measure radius flattening fid tid))) := by
    apply exceptMap_ok
    intro fid hfid
    apply exceptMap_ok
    intro tid htid
    exact get_separation_cell_ok F K fids tids measure radius flattening p hm hr hfl hrows
      fid tid hfid htid
  simp only [pyPure_eq] at hout
  simp only [get_separation, if_neg hnm, pyPure_eq, pyOk_bind, IdInput.toList,
    get_pos_df_ok fids tids p hf ht, hout]

theorem bind_ok_inv {α β : Type} (e : Except PyError α) (f : α → Except PyError β) (b : β)
    (h : (e >>= f) = Except.ok b) : ∃ a, e = Except.ok a ∧ f a = Except.ok b := by
  cases e with
  | ok a => exact ⟨a, rfl, h⟩
  | error err => simp at h

/-- Claim C9: the position table get_pos_df builds has as keys exactly the
deduplicated union of the from and to id lists, each id at most once, and
the Position Provider is queried exactly once for it (one batched call). -/
theorem get_pos_df_keys_union_single_query (fids tids : List String) (p : Provider)
    (hf : _validate_id_list fids = Except.ok ())
    (ht : _validate_id_list tids = Except.ok ()) :
    ∃ df p1, get_pos_df fids tids p = Except.ok (df, p1) ∧
      (∀ x, x ∈ df.map Prod.fst ↔ x ∈ fids ++ tids) ∧
      (df.map Prod.fst).Nodup ∧
      p1.calls = p.calls + 1 := by
  refine ⟨posDfOf p.table fids tids, ⟨p.table, p.calls + 1⟩,
    get_pos_df_ok fids tids p hf ht, ?_, ?_, rfl⟩
  · intro x
    unfold posDfOf
    rw [keys_scaleAltitudeColumn, keys_reindex]
    exact List.mem_dedup
  · unfold posDfOf
    rw [keys_scaleAltitudeColumn, keys_reindex]
    exact List.nodup_dedup _

theorem get_pos_df_keys_union_single_query_witness :
    (_validate_id_list ["AAA"] = Except.ok () ∧ _validate_id_list ["BBB"] = Except.ok ()) ∧
    (∃ df p1, get_pos_df ["AAA"] ["BBB"] P0 = Except.ok (df, p1) ∧
      (∀ x, x ∈ df.map Prod.fst ↔ x ∈ ["AAA"] ++ ["BBB"]) ∧
      (df.map Prod.fst).Nodup ∧
      p1.calls = P0.calls + 1) :=
  ⟨⟨by decide, by decide⟩,
   get_pos_df_keys_union_single_query ["AAA"] ["BBB"] P0 (by decide) (by decide)⟩

/-- Claim C4: every altitude entering a distance computation is the
provider-reported altitude in feet multiplied by exactly 0.3048; an
aircraft reported at 10000 feet contributes altitude 3048 metres. -/
theorem get_pos_df_altitude_feet_to_metres (fids tids : List String) (p : Provider)
    (hf : _validate_id_list fids = Except.ok ())
    (ht : _validate_id_list tids = Except.ok ()) :
    ∃ df p1, get_pos_df fids tids p = Except.ok (df, p1) ∧
      SCALE_FEET_TO_METRES = 0.3048 ∧
      (∀ id, id ∈ fids ++ tids →
        (lookupRow df id).altitude =
          ((lookupRow p.table id).altitude).map (fun a => SCALE_FEET_TO_METRES * a)) ∧
      (∀ id, id ∈ fids ++ tids → (lookupRow p.table id).altitude = some 10000 →
        (lookupRow df id).altitude = some 3048) := by
  refine ⟨_, _, get_pos_df_ok fids tids p hf ht, rfl, ?_, ?_⟩
  · intro id hid
    rw [lookupRow_posDfOf p.table fids tids id hid]
    rfl
  · intro id hid h10
    rw [lookupRow_posDfOf p.table fids tids id hid]
    norm_num [scaleRowAltitude, h10, SCALE_FEET_TO_METRES]

theorem get_pos_df_altitude_feet_to_metres_witness :
    (_validate_id_list ["AAA"] = Except.ok ()) ∧
    (∃ df p1, get_pos_df ["AAA"] ["AAA"] P10 = Except.ok (df, p1) ∧
      SCALE_FEET_TO_METRES = 0.3048 ∧
      (∀ id, id ∈ ["AAA"] ++ ["AAA"] →
        (lookupRow df id).altitude =
          ((lookupRow P10.table id).altitude).map (fun a => SCALE_FEET_TO_METRES * a)) ∧
      (∀ id, id ∈ ["AAA"] ++ ["AAA"] → (lookupRow P10.table id).altitude = some 10000 →
        (lookupRow df id).altitude = some 3048)) :=
  ⟨by decide,
   get_pos_df_altitude_feet_to_metres ["AAA"] ["AAA"] P10 (by decide) (by decide)⟩

/-- Claim C5: whatever matrix get_separation returns carries row labels
equal to the given from-id list, in order and with duplicates preserved,
and column labels equal to the to-id list likewise. -/
theorem get_separation_labels (F : FloatOps) (K : GeoKernels) (fids tids : List String)
    (measure : String) (radius flattening : ℚ) (p : Provider) (M : SepMatrix) (p1 : Provider)
    (h : get_separation F K (IdInput.idList fids) (some (IdInput.idList tids)) measure radius
        flattening p = Except.ok (M, p1)) :
    M.index = fids ∧ M.columns = tids := by
  by_cases hm : measure ∉ (["geodesic", "great_circle", "vertical", "euclidean"] : List String)
  · simp only [get_separation, if_pos hm, pyThrow_eq, pyError_bind] at h
    cases h
  · simp only [get_separation, if_neg hm, pyPure_eq, pyOk_bind, IdInput.toList] at h
    obtain ⟨dfp, hdf, h⟩ := bind_ok_inv _ _ _ h
    rcases dfp with ⟨df, pp⟩
    simp only [pyOk_bind] at h
    obtain ⟨data, hE, h⟩ := bind_ok_inv _ _ _ h
    have hinj := Except.ok.inj h
    rw [Prod.mk.injEq] at hinj
    rw [← hinj.1]
    exact ⟨rfl, rfl⟩

theorem get_separation_labels_witness :
    ∃ M p1, get_separation F0 K0 (IdInput.idList ["AAA", "AAA"]) (some (IdInput.idList ["AAA"]))
        ("vertical") 1000 1 P0 = Except.ok (M, p1) ∧
      M.index = ["AAA", "AAA"] ∧ M.columns = ["AAA"] :=
  ⟨_, _,
   get_separation_ok F0 K0 ["AAA", "AAA"] ["AAA"] ("vertical") 1000 1 P0 (by decide) (by decide)
     (by decide) (by decide) (by decide) (by decide),
   get_separation_labels F0 K0 ["AAA", "AAA"] ["AAA"] ("vertical") 1000 1 P0 _ _
     (get_separation_ok F0 K0 ["AAA", "AAA"] ["AAA"] ("vertical") 1000 1 P0 (by decide)
       (by decide) (by decide) (by decide) (by decide) (by decide))⟩

theorem sepMatrix_cell_map (g : String → String → Option ℚ) (fids tids : List String)
    (cols idx : List String) (i j : ℕ) (hi : i < fids.length) (hj : j < tids.length) :
    (SepMatrix.mk (fids.map (fun fid => tids.map (fun tid => g fid tid))) cols idx).cell i j =
      some (g fids[i] tids[j]) := by
  simp only [SepMatrix.cell]
  rw [List.getElem?_map, List.getElem?_eq_getElem hi]
  simp only [Option.map_some', Option.some_bind]
  rw [List.getElem?_map, List.getElem?_eq_getElem hj]
  simp [Option.map_some']

/-- Claim C2: in a get_separation call over valid id lists, any pair whose
endpoint has a NaN position row, in particular an aircraft the Position
Provider does not know, whose reindexed row is all NaN (first conjunct),
yields the missing-value marker as its cell; no exception is raised (the
call returns a matrix), and every pair of fully known in-range aircraft
still gets a computed numeric cell. -/
theorem get_separation_missing_position_nan_cell (F : FloatOps) (K : GeoKernels)
    (fids tids : List String) (measure : String) (radius flattening : ℚ) (p : Provider)
    (hm : measure ∈ (["geodesic", "great_circle", "vertical", "euclidean"] : List String))
    (hf : _validate_id_list fids = Except.ok ())
    (ht : _validate_id_list tids = Except.ok ())
    (hr : 0 ≤ radius) (hfl : 0 ≤ flattening)
    (hrows : ((fids ++ tids).all (fun id =>
        (lookupRow p.table id).isnullAny || rowFullyValid (lookupRow p.table id))) = true) :
    (∀ id, List.find? (fun q => q.1 == id) p.table = none →
        (lookupRow p.table id).isnullAny = true) ∧
    ∃ M p1, get_separation F K (IdInput.idList fids) (some (IdInput.idList tids)) measure radius
        flattening p = Except.ok (M, p1) ∧
      ∀ (i j : ℕ) (hi : i < fids.length) (hj : j < tids.length),
        (((lookupRow p.table fids[i]).isnullAny = true ∨
            (lookupRow p.table tids[j]).isnullAny = true) →
          M.cell i j = some none) ∧
        ((rowFullyValid (lookupRow p.table fids[i]) = true ∧
            rowFullyValid (lookupRow p.table tids[j]) = true) →
          ∃ d, M.cell i j = some (some d)) := by
  constructor
  · intro id h
    simp [lookupRow, h, emptyRow, Row.isnullAny]
  refine ⟨_, _, get_separation_ok F K fids tids measure radius flattening p hm hf ht hr hfl
    hrows, ?_⟩
  intro i j hi hj
  have hfm : fids[i] ∈ fids := List.getElem_mem hi
  have htm : tids[j] ∈ tids := List.getElem_mem hj
  have hbf := lookupRow_posDfOf p.table fids tids _ (List.mem_append_left tids hfm)
  have hbt := lookupRow_posDfOf p.table fids tids _ (List.mem_append_right fids htm)
  constructor
  · intro hnull
    have hg : ((lookupRow (posDfOf p.table fids tids) fids[i]).isnullAny ||
        (lookupRow (posDfOf p.table fids tids) tids[j]).isnullAny) = true := by
      rcases hnull with h | h
      · rw [hbf, scaleRowAltitude_isnullAny, h, Bool.true_or]
      · rw [hbt, scaleRowAltitude_isnullAny, h, Bool.or_true]
    rw [sepMatrix_cell_map _ fids tids _ _ i j hi hj]
    simp [specCell, hg]
  · intro hv
    have g1 : (lookupRow (posDfOf p.table fids tids) fids[i]).isnullAny = false := by
      rw [hbf, scaleRowAltitude_isnullAny]
      exact rowFullyValid_not_null _ hv.1
    have g2 : (lookupRow (posDfOf p.table fids tids) tids[j]).isnullAny = false := by
      rw [hbt, scaleRowAltitude_isnullAny]
      exact rowFullyValid_not_null _ hv.2
    rw [sepMatrix_cell_map _ fids tids _ _ i j hi hj]
    exact ⟨distance_val F K (lookupRow (posDfOf p.table fids tids) fids[i])
        (lookupRow (posDfOf p.table fids tids) tids[j]) measure radius flattening,
      by simp [specCell, g1, g2]⟩

theorem get_separation_missing_position_nan_cell_witness :
    ("vertical" ∈ (["geodesic", "great_circle", "vertical", "euclidean"] : List String) ∧
     _validate_id_list ["AAA", "CCC"] = Except.ok () ∧
     _validate_id_list ["AAA"] = Except.ok () ∧
     (0:ℚ) ≤ 1000 ∧ (0:ℚ) ≤ 1 ∧
     ((["AAA", "CCC"] ++ ["AAA"]).all (fun id =>
        (lookupRow P0.table id).isnullAny || rowFullyValid (lookupRow P0.table id))) = true) ∧
    ((∀ id, List.find? (fun q => q.1 == id) P0.table = none →
        (lookupRow P0.table id).isnullAny = true) ∧
     ∃ M p1, get_separation F0 K0 (IdInput.idList ["AAA", "CCC"]) (some (IdInput.idList ["AAA"]))
        ("vertical") 1000 1 P0 = Except.ok (M, p1) ∧
      ∀ (i j : ℕ) (hi : i < (["AAA", "CCC"] : List String).length)
          (hj : j < (["AAA"] : List String).length),
        (((lookupRow P0.table (["AAA", "CCC"] : List String)[i]).isnullAny = true ∨
            (lookupRow P0.table (["AAA"] : List String)[j]).isnullAny = true) →
          M.cell i j = some none) ∧
        ((rowFullyValid (lookupRow P0.table (["AAA", "CCC"] : List String)[i]) = true ∧
            rowFullyValid (lookupRow P0.table (["AAA"] : List String)[j]) = true) →
          ∃ d, M.cell i j = some (some d))) :=
  ⟨⟨by decide, by decide, by decide, by decide, by decide, by decide⟩,
   get_separation_missing_position_nan_cell F0 K0 ["AAA", "CCC"] ["AAA"] ("vertical") 1000 1 P0
     (by decide) (by decide) (by decide) (by decide) (by decide) (by decide)⟩

/-- Claim C10: the NaN guard in get_separation tests every field of both
position rows, so an endpoint with known latitude and longitude but NaN
altitude yields a NaN cell even under measure geodesic or great_circle
(first conjunct), although get_distance never reads the altitude fields for
those two measures (second conjunct). -/
theorem get_separation_nan_altitude_nan_even_for_lat_lon_measures (F : FloatOps)
    (K : GeoKernels) (fids tids : List String) (measure : String) (radius flattening : ℚ)
    (p : Provider)
    (hm2 : measure = "geodesic" ∨ measure = "great_circle")
    (hf : _validate_id_list fids = Except.ok ())
    (ht : _validate_id_list tids = Except.ok ())
    (hr : 0 ≤ radius) (hfl : 0 ≤ flattening)
    (hrows : ((fids ++ tids).all (fun id =>
        (lookupRow p.table id).isnullAny || rowFullyValid (lookupRow p.table id))) = true)
    (j : ℕ) (hj : j < tids.length)
    (hlat : (lookupRow p.table tids[j]).latitude.isSome = true)
    (hlon : (lookupRow p.table tids[j]).longitude.isSome = true)
    (halt : (lookupRow p.table tids[j]).altitude = none) :
    (∃ M p1, get_separation F K (IdInput.idList fids) (some (IdInput.idList tids)) measure
        radius flattening p = Except.ok (M, p1) ∧
      ∀ (i : ℕ) (hi : i < fids.length), M.cell i j = some none) ∧
    (∀ r1 r2 : Row, ∀ a1 a2 : Option ℚ,
      get_distance F K { r1 with altitude := a1 } { r2 with altitude := a2 } measure radius
          flattening =
        get_distance F K r1 r2 measure radius flattening) := by
  have hm : measure ∈ (["geodesic", "great_circle", "vertical", "euclidean"] : List String) := by
    rcases hm2 with h | h <;> subst h <;> decide
  constructor
  · refine ⟨_, _, get_separation_ok F K fids tids measure radius flattening p hm hf ht hr hfl
      hrows, ?_⟩
    intro i hi
    have htm : tids[j] ∈ tids := List.getElem_mem hj
    have hbt := lookupRow_posDfOf p.table fids tids _ (List.mem_append_right fids htm)
    have hnull : (lookupRow p.table tids[j]).isnullAny = true := by
      simp [Row.isnullAny, halt]
    have hg : ((lookupRow (posDfOf p.table fids tids) fids[i]).isnullAny ||
        (lookupRow (posDfOf p.table fids tids) tids[j]).isnullAny) = true := by
      rw [hbt, scaleRowAltitude_isnullAny, hnull, Bool.or_true]
    rw [sepMatrix_cell_map _ fids tids _ _ i j hi hj]
    simp [specCell, hg]
  · intro r1 r2 a1 a2
    rcases hm2 with h | h <;> subst h <;>
      simp [get_distance, geodesic_distance, great_circle_distance]

theorem get_separation_nan_altitude_nan_even_for_lat_lon_measures_witness :
    (("geodesic" = "geodesic" ∨ "geodesic" = "great_circle") ∧
     _validate_id_list ["AAA"] = Except.ok () ∧
     _validate_id_list ["BBB"] = Except.ok () ∧
     (0:ℚ) ≤ 1000 ∧ (0:ℚ) ≤ 1 ∧
     ((["AAA"] ++ ["BBB"]).all (fun id =>
        (lookupRow P0.table id).isnullAny || rowFullyValid (lookupRow P0.table id))) = true ∧
     (lookupRow P0.table (["BBB"] : List String)[0]).latitude.isSome = true ∧
     (lookupRow P0.table (["BBB"] : List String)[0]).longitude.isSome = true ∧
     (lookupRow P0.table (["BBB"] : List String)[0]).altitude = none) ∧
    ((∃ M p1, get_separation F0 K0 (IdInput.idList ["AAA"]) (some (IdInput.idList ["BBB"]))
        ("geodesic") 1000 1 P0 = Except.ok (M, p1) ∧
      ∀ (i : ℕ) (hi : i < (["AAA"] : List String).length), M.cell i 0 = some none) ∧
    (∀ r1 r2 : Row, ∀ a1 a2 : Option ℚ,
      get_distance F0 K0 { r1 with altitude := a1 } { r2 with altitude := a2 } ("geodesic")
          1000 1 =
        get_distance F0 K0 r1 r2 ("geodesic") 1000 1)) :=
  ⟨⟨Or.inl rfl, by decide, by decide, by decide, by decide, by decide, by decide, by decide,
    by decide⟩,
   get_separation_nan_altitude_nan_even_for_lat_lon_measures F0 K0 ["AAA"] ["BBB"] ("geodesic")
     1000 1 P0 (Or.inl rfl) (by decide) (by decide) (by decide) (by decide) (by decide) 0
     (by decide) (by decide) (by decide) (by decide)⟩

/-- Claim C8: convert_lat_lon_to_cartesian projects a geodetic point onto
the sphere of radius radius+alt by the standard spherical-to-cartesian
formulas, with latitude and longitude converted from degrees to radians;
and euclidean_distance of two valid points is exactly the straight-line
euclidean norm of the difference of their two cartesian images. -/
theorem toCartesian_formula_and_euclidean_norm
    (lat lon alt radius flat flon falt tlat tlon talt r : ℝ)
    (h1 : |flat| ≤ 90) (h2 : -180 ≤ flon ∧ flon < 180) (h3 : 0 ≤ falt)
    (h4 : |tlat| ≤ 90) (h5 : -180 ≤ tlon ∧ tlon < 180) (h6 : 0 ≤ talt) (h7 : 0 ≤ r) :
    convert_lat_lon_to_cartesianR lat lon alt radius =
      ((radius + alt) * Real.cos (lat * (Real.pi / 180)) * Real.cos (lon * (Real.pi / 180)),
       (radius + alt) * Real.cos (lat * (Real.pi / 180)) * Real.sin (lon * (Real.pi / 180)),
       (radius + alt) * Real.sin (lat * (Real.pi / 180))) ∧
    euclidean_distanceR flat flon falt tlat tlon talt r =
      Except.ok (Real.sqrt
        (((convert_lat_lon_to_cartesianR flat flon falt r).1 -
            (convert_lat_lon_to_cartesianR tlat tlon talt r).1) ^ 2 +
         ((convert_lat_lon_to_cartesianR flat flon falt r).2.1 -
            (convert_lat_lon_to_cartesianR tlat tlon talt r).2.1) ^ 2 +
         ((convert_lat_lon_to_cartesianR flat flon falt r).2.2 -
            (convert_lat_lon_to_cartesianR tlat tlon talt r).2.2) ^ 2)) := by
  constructor
  · rfl
  · simp [euclidean_distanceR, _validate_latitudeR, _validate_longitudeR,
      _validate_is_positiveR, h1, h2, h3, h4, h5, h6, h7, euclideanR]

theorem toCartesian_formula_and_euclidean_norm_witness :
    (|(10:ℝ)| ≤ 90 ∧ ((-180:ℝ) ≤ 20 ∧ (20:ℝ) < 180) ∧ (0:ℝ) ≤ 5 ∧
     |(30:ℝ)| ≤ 90 ∧ ((-180:ℝ) ≤ 40 ∧ (40:ℝ) < 180) ∧ (0:ℝ) ≤ 7 ∧ (0:ℝ) ≤ 1000) ∧
    (convert_lat_lon_to_cartesianR 10 20 5 1000 =
      (((1000:ℝ) + 5) * Real.cos (10 * (Real.pi / 180)) * Real.cos (20 * (Real.pi / 180)),
       ((1000:ℝ) + 5) * Real.cos (10 * (Real.pi / 180)) * Real.sin (20 * (Real.pi / 180)),
       ((1000:ℝ) + 5) * Real.sin (10 * (Real.pi / 180))) ∧
    euclidean_distanceR 10 20 5 30 40 7 1000 =
      Except.ok (Real.sqrt
        (((convert_lat_lon_to_cartesianR 10 20 5 1000).1 -
            (convert_lat_lon_to_cartesianR 30 40 7 1000).1) ^ 2 +
         ((convert_lat_lon_to_cartesianR 10 20 5 1000).2.1 -
            (convert_lat_lon_to_cartesianR 30 40 7 1000).2.1) ^ 2 +
         ((convert_lat_lon_to_cartesianR 10 20 5 1000).2.2 -
            (convert_lat_lon_to_cartesianR 30 40 7 1000).2.2) ^ 2))) :=
  ⟨⟨by norm_num, ⟨by norm_num, by norm_num⟩, by norm_num, by norm_num,
    ⟨by norm_num, by norm_num⟩, by norm_num, by norm_num⟩,
   toCartesian_formula_and_euclidean_norm 10 20 5 1000 10 20 5 30 40 7 1000
     (by norm_num) (⟨by norm_num, by norm_num⟩) (by norm_num) (by norm_num)
     (⟨by norm_num, by norm_num⟩) (by norm_num) (by norm_num)⟩
